import Mathlib

set_option maxRecDepth 8192

/-!
Verification of the pyassuan Assuan-protocol server (`src/pyassuan/server.py`)
against its natural-language specification.

The repository ships `server.py` together with tests for the `common` codec
module; the `pyassuan.common` and `pyassuan.error` modules themselves are not
part of the sources.  Definitions for those two modules are therefore modelled
from the specification (each such definition carries a doc comment starting
with `Modelled from the spec:`); everything in `server.py` is embedded
directly from the source.

Bytes are modelled as `Fin 256`, byte strings as `List (Fin 256)`, and the
protocol text that `server.py` manipulates as Lean `String`s (the protocol is
ASCII text, where Python's `str` operations and Lean's agree).
-/

namespace PyAssuan

/-- A byte, the unit of the wire format. -/
abbrev Byte := Fin 256

/-- Modelled from the spec: the escape set of `common.encode` — `%` (0x25),
newline (0x0A) and carriage return (0x0D) are the only escaped bytes. -/
def needsEscape (b : Byte) : Bool :=
  b == (37 : Byte) || b == (10 : Byte) || b == (13 : Byte)

/-- Modelled from the spec: the uppercase hexadecimal digit (as a byte) for a
value below 16. -/
def hexDigit (v : Nat) : Byte :=
  ⟨(if v < 10 then 48 + v else 55 + v) % 256, by omega⟩

/-- Modelled from the spec: `common.encode` on a single byte — an escaped byte
becomes `%` followed by its two-digit uppercase hexadecimal value, any other
byte passes through unchanged. -/
def encodeByte (b : Byte) : List Byte :=
  if needsEscape b then [37, hexDigit (b.val / 16), hexDigit (b.val % 16)] else [b]

/-- Modelled from the spec: `common.encode` over a byte string. -/
def encode : List Byte → List Byte
  | [] => []
  | b :: rest => encodeByte b ++ encode rest

/-- Modelled from the spec: the value of a hexadecimal digit byte, case
insensitive on the letters; `none` on a non-hex byte. -/
def hexVal (b : Byte) : Option Nat :=
  if 48 ≤ b.val ∧ b.val ≤ 57 then some (b.val - 48)
  else if 65 ≤ b.val ∧ b.val ≤ 70 then some (b.val - 55)
  else if 97 ≤ b.val ∧ b.val ≤ 102 then some (b.val - 87)
  else none

/-- Modelled from the spec: `common.decode` — every `%XY` triplet (X, Y hex
digits) is replaced by the byte `0xXY`; a trailing `%` without two following
bytes, or non-hex digits after a `%`, is a decode fault (`none`). -/
def decode : List Byte → Option (List Byte)
  | [] => some []
  | b :: hi :: lo :: rest =>
    if b = (37 : Byte) then
      match hexVal hi, hexVal lo with
      | some h, some l => (decode rest).map (⟨(16 * h + l) % 256, by omega⟩ :: ·)
      | _, _ => none
    else (decode (hi :: lo :: rest)).map (b :: ·)
  | b :: rest =>
    if b = (37 : Byte) then none else (decode rest).map (b :: ·)

/-- An uppercase hexadecimal digit byte (`0`–`9` or `A`–`F`). -/
def isUpperHexDigit (b : Byte) : Bool :=
  (48 ≤ b.val && b.val ≤ 57) || (65 ≤ b.val && b.val ≤ 70)

/-- A byte string is line safe when it holds no newline or carriage return at
all and every `%` in it starts a `%XY` escape with two uppercase hex digits —
i.e. it has no raw `%`, `0x0A` or `0x0D` byte. -/
def lineSafe : List Byte → Bool
  | [] => true
  | b :: hi :: lo :: rest =>
    if b = (37 : Byte) then isUpperHexDigit hi && isUpperHexDigit lo && lineSafe rest
    else b != (10 : Byte) && b != (13 : Byte) && lineSafe (hi :: lo :: rest)
  | b :: rest =>
    b != (37 : Byte) && b != (10 : Byte) && b != (13 : Byte) && lineSafe rest

/-- The bytes of the ASCII string `It grew by 5%!` followed by a newline. -/
def exampleRaw : List Byte :=
  [73, 116, 32, 103, 114, 101, 119, 32, 98, 121, 32, 53, 37, 33, 10]

/-- The bytes of the ASCII string `It grew by 5%25!%0A`. -/
def exampleEncoded : List Byte :=
  [73, 116, 32, 103, 114, 101, 119, 32, 98, 121, 32, 53, 37, 50, 53, 33, 37, 48, 65]

/-- A worker of `AssuanSocketServer`: the thread spawned for one connection;
`alive` is what `thread.is_alive()` reports when the accept loop next
inspects it.  (`__spawn_thread` never assigns a `socket` attribute on the
`threading.Thread` it creates, so no cleanup of a worker's socket can ever
succeed — see `cleanupThreads`.) -/
structure SWorker where
  wid : Nat
  alive : Bool
deriving DecidableEq

/-- How `AssuanSocketServer.__cleanup_threads` ends: either the index scan
runs off the end of the list normally, or `thread.socket.shutdown()` raises
`AttributeError` (a `threading.Thread` has no `socket` attribute), which
propagates out of the method.  Either way `threads` is the content of
`self.threads` at that moment; in the `attributeError` case `popped` is the
worker that was just popped from the list — still running, its socket left
open, the rest of the list never examined. -/
inductive CleanupResult
  | ok (threads : List SWorker)
  | attributeError (threads : List SWorker) (popped : SWorker)
deriving DecidableEq

/-- Source `AssuanSocketServer.__cleanup_threads`: walk `self.threads` by
index; `thread.join(0)`; when `thread.is_alive()` is true (the condition as
written in the source), pop the thread from the list and call
`thread.socket.shutdown()` — which raises `AttributeError`, aborting the scan
with the popped worker's socket untouched; when it is false, advance past the
thread, keeping it in the list. -/
def cleanupThreads : List SWorker → CleanupResult
  | [] => .ok []
  | w :: rest =>
    if w.alive then .attributeError rest w
    else
      match cleanupThreads rest with
      | .ok kept => .ok (w :: kept)
      | .attributeError remaining popped => .attributeError (w :: remaining) popped

/-- The outcome of one iteration of `AssuanSocketServer.run` after `accept`
returns: either a worker was spawned for the connection (with the thread list
afterwards, and whether `drop_connection` — a pure log call, not guarded by
an `else` — was invoked first), or the iteration crashed inside
`__cleanup_threads` before reaching the drop check and the spawn, killing
the accept loop. -/
inductive AcceptOutcome
  | spawned (threads : List SWorker) (droppedCalled : Bool)
  | crashed (threads : List SWorker) (popped : SWorker)
deriving DecidableEq

/-- One iteration of `AssuanSocketServer.run`: `__cleanup_threads()` — whose
`AttributeError`, if raised, propagates out of `run`, so neither the drop
check nor the spawn happens; otherwise, if
`len(self.threads) > self.max_threads`, call `drop_connection`; then (in
every case) `__spawn_thread`, which constructs a fresh `AssuanServer` on the
new socket, starts its thread, and appends it to `self.threads`. -/
def acceptStep (maxThreads : Nat) (threads : List SWorker) (newId : Nat) : AcceptOutcome :=
  match cleanupThreads threads with
  | .attributeError remaining popped => .crashed remaining popped
  | .ok kept => .spawned (kept ++ [⟨newId, true⟩]) (maxThreads < kept.length)

/-- A Python value as far as `AssuanSocketServer.__init__`'s kwargs check is
concerned: booleans, strings and tuples (pairs), compared structurally the
way Python `==` compares them (a bool never equals a tuple). -/
inductive PyVal
  | pybool (b : Bool)
  | pystr (s : String)
  | pypair (a b : PyVal)
deriving DecidableEq

/-- The outcome of `AssuanSocketServer.__init__`'s kwargs handling. -/
inductive KwargsOutcome
  | assertionError
  | accepted (kwargs : List (String × PyVal))
deriving DecidableEq

/-- The kwargs handling of `AssuanSocketServer.__init__`:
`assert 'name' not in kwargs`; then if `'close_on_disconnect'` is in kwargs,
`assert kwargs['close_on_disconnect'] == (True, kwargs['close_on_disconnect'])`
— the stored value compared against a two-element tuple — else inject
`kwargs['close_on_disconnect'] = True`. -/
def initSocketServerKwargs (kwargs : List (String × PyVal)) : KwargsOutcome :=
  if (kwargs.lookup "name").isSome then .assertionError
  else
    match kwargs.lookup "close_on_disconnect" with
    | some v =>
      if v = PyVal.pypair (.pybool true) v then .accepted kwargs else .assertionError
    | none => .accepted (kwargs ++ [("close_on_disconnect", .pybool true)])


/-- Modelled from the spec: `pyassuan.error.AssuanError` carries a numeric
protocol code and a short message; when raised with only a message, the code
is looked up from a table.  The spec pins the codes 90 (`Invalid parameter`),
174 (`Unknown option`) and 175 (`Unknown command`); codes of the remaining
messages are not pinned by the spec and are modelled as `none`. -/
structure AssuanError where
  code : Option Nat
  message : String
deriving DecidableEq

/-- Modelled from the spec: the message-to-code table, restricted to the
codes the spec fixes. -/
def messageCode (m : String) : Option Nat :=
  if m = "Invalid parameter" then some 90
  else if m = "Unknown option" then some 174
  else if m = "Unknown command" then some 175
  else none

/-- An `AssuanError` raised with only a message (`AssuanError(message=...)`). -/
def mkError (m : String) : AssuanError :=
  ⟨messageCode m, m⟩

/-- Modelled from the spec: `pyassuan.common.Response` — a typed protocol
line: `OK`, `ERR`, data, status, comment or inquire. -/
inductive Response
  | ok (text : Option String)
  | err (code : Option Nat) (message : String)
  | data (payload : String)
  | status (keyword : String) (text : String)
  | comment (text : String)
  | inquire (keyword : String)
deriving DecidableEq

/-- Modelled from the spec: `common.error_response` renders an `AssuanError`
as an `ERR code message` response. -/
def errorResponse (e : AssuanError) : Response :=
  Response.err e.code e.message

/-- Modelled from the spec: `pyassuan.common.Request` — a command token and
the raw (undecoded) parameter tail. -/
structure Request where
  command : String
  parameters : String
deriving DecidableEq

/-- Modelled from the spec: `Request.from_bytes` — the grammar is `COMMAND`
optionally followed by one or more spaces and a parameters tail; parameters
are not decoded; a line empty after whitespace trimming is a parse fault
(`Invalid request`). -/
def requestFromBytes (line : String) : Except AssuanError Request :=
  let cs := line.data.dropWhile (· == ' ')
  match cs.takeWhile (· != ' ') with
  | [] => Except.error (mkError "Invalid request")
  | cmd =>
    Except.ok ⟨String.mk cmd, String.mk ((cs.dropWhile (· != ' ')).dropWhile (· == ' '))⟩

/-- The per-connection mutable state of `AssuanServer`: the stored options
(`self.options`, an insertion-ordered mapping) and the stop flag
(`self.stop`). -/
structure ServerState where
  options : List (String × Option String)
  stop : Bool
deriving DecidableEq

/-- The constructor configuration of `AssuanServer` that the dispatch machine
reads (`name` and `close_on_disconnect` only affect logging and stream
teardown and carry no protocol behavior). -/
structure Config where
  validOptions : List String
  strictOptions : Bool
  singlerequest : Bool
  listenToQuit : Bool
deriving DecidableEq

/-- Source `AssuanServer.reset`: clears the options and sets the stop flag to false. -/
def resetState (st : ServerState) : ServerState :=
  { st with options := [], stop := false }

/-- Python dict assignment `self.options[name] = value`: replace in place if
the key exists, append otherwise. -/
def setOption (name : String) (v : Option String) :
    List (String × Option String) → List (String × Option String)
  | [] => [(name, v)]
  | (k, w) :: rest =>
    if k = name then (name, v) :: rest else (k, w) :: setOption name v rest

/-- A character of the regex class `[-\w]` (`server.py`'s `OPTION_REGEXP`):
letters, digits, underscore or dash (the protocol text is ASCII). -/
def isWordDash (c : Char) : Bool :=
  c.isAlphanum || c == '_' || c == '-'

/-- How many leading dashes `OPTION_REGEXP`'s `-?-?` consumes: greedily up to
two, backtracking so that at least one `[-\w]` character is left to start the
`([-\w]+)` name group (a dash is itself in `[-\w]`, so backtracking only
matters when the string is almost all dashes or a non-word character follows
them). -/
def dashDrop : List Char → Nat
  | '-' :: '-' :: c :: _ => if isWordDash c then 2 else 1
  | '-' :: '-' :: [] => 1
  | '-' :: c :: _ => if isWordDash c then 1 else 0
  | _ => 0

/-- Source `OPTION_REGEXP.match(arg).groups()`: the regex
`^-?-?([-\w]+)( *)(=?) *(.*?) *\Z` applied to `arg`, returning the groups
(name, space, equal, value) or `none` when it does not match.  It fails
exactly when `arg` is empty, its first character is outside `[-\w]`, or it
contains a newline (no element of the pattern matches `\n`).  After the
greedy name run, the space group takes the following run of spaces, the equal
group one optional `=`, a further run of spaces is skipped, and the lazy
`(.*?) *\Z` makes the value the remainder with trailing spaces stripped. -/
def matchOption (arg : String) : Option (String × String × String × String) :=
  let cs := arg.data
  if cs.any (· == '\n') then none
  else
    match cs with
    | [] => none
    | c :: _ =>
      if isWordDash c then
        let after := cs.drop (dashDrop cs)
        let name := after.takeWhile isWordDash
        let rest := after.dropWhile isWordDash
        let sp := rest.takeWhile (· == ' ')
        let rest2 := rest.dropWhile (· == ' ')
        let eqRest : String × List Char :=
          match rest2 with
          | '=' :: r => ("=", r)
          | r => ("", r)
        let rest4 := eqRest.2.dropWhile (· == ' ')
        let value := (rest4.reverse.dropWhile (· == ' ')).reverse
        some (String.mk name, String.mk sp, eqRest.1, String.mk value)
      else none

/-- Python `str.lower()` as applied to a single character of the ASCII
protocol text: shift an uppercase letter down by 32, leave anything else. -/
def lowerChar (c : Char) : Char :=
  if 65 ≤ c.toNat ∧ c.toNat ≤ 90 then Char.ofNat (c.toNat + 32) else c

/-- Python `str.lower()` over the command token (`request.command.lower()`). -/
def lowerString (s : String) : String :=
  String.mk (s.data.map lowerChar)

/-- What happens after the responses a handler yielded: normal completion, an
`AssuanError` raised by the handler, or a non-Assuan Python exception (caught
by the dispatcher's generic `except Exception` arm). -/
inductive HandlerTail
  | done
  | fault (e : AssuanError)
  | pythonError
deriving DecidableEq

/-- The observable behavior of invoking one handler and draining its
response generator: the state after it ran, the responses it yielded before
finishing, and how it finished. -/
structure HandlerResult where
  state : ServerState
  emitted : List Response
  tail : HandlerTail
deriving DecidableEq

/-- Source `AssuanServer._handle_bye`: in single-request mode set stop; yield
`OK closing connection`. -/
def handleBye (cfg : Config) (st : ServerState) (_arg : String) : HandlerResult :=
  ⟨if cfg.singlerequest then { st with stop := true } else st,
   [Response.ok (some "closing connection")], .done⟩

/-- Source `AssuanServer._handle_reset`: calls `self.reset()` and returns `None`
(it is a plain function, not a generator).  The dispatch loop then executes
`for response in None`, raising `TypeError` — a non-Assuan exception. -/
def handleReset (_cfg : Config) (st : ServerState) (_arg : String) : HandlerResult :=
  ⟨resetState st, [], .pythonError⟩

/-- Source `AssuanServer._handle_end`: raises `AssuanError(175, 'Unknown command
(reserved)')` when called. -/
def handleEnd (_cfg : Config) (st : ServerState) (_arg : String) : HandlerResult :=
  ⟨st, [], .fault ⟨some 175, "Unknown command (reserved)"⟩⟩

/-- Source `AssuanServer._handle_help`: raises `AssuanError(175, ...)` when called. -/
def handleHelp (_cfg : Config) (st : ServerState) (_arg : String) : HandlerResult :=
  ⟨st, [], .fault ⟨some 175, "Unknown command (reserved)"⟩⟩

/-- Source `AssuanServer._handle_quit`: a generator; with `listen_to_quit` it sets
stop and yields `OK stopping the server`, then (in all cases) raises
`AssuanError(175, 'Unknown command (reserved)')`. -/
def handleQuit (cfg : Config) (st : ServerState) (_arg : String) : HandlerResult :=
  if cfg.listenToQuit then
    ⟨{ st with stop := true }, [Response.ok (some "stopping the server")],
     .fault ⟨some 175, "Unknown command (reserved)"⟩⟩
  else
    ⟨st, [], .fault ⟨some 175, "Unknown command (reserved)"⟩⟩

/-- Source `AssuanServer._handle_option`: match `OPTION_REGEXP`; no match or a value
without a space/equals separator is `Invalid parameter`; a name outside the
allow-list is `Unknown option` under strict mode and a silent skip otherwise;
otherwise the value (or `None` when empty) is stored; on success yield
`Response('OK')`. -/
def handleOption (cfg : Config) (st : ServerState) (arg : String) : HandlerResult :=
  match matchOption arg with
  | none => ⟨st, [], .fault (mkError "Invalid parameter")⟩
  | some (name, sp, eq, value) =>
    if value ≠ "" ∧ sp = "" ∧ eq = "" then
      ⟨st, [], .fault (mkError "Invalid parameter")⟩
    else if ¬ name ∈ cfg.validOptions then
      if cfg.strictOptions then ⟨st, [], .fault (mkError "Unknown option")⟩
      else ⟨st, [Response.ok none], .done⟩
    else
      ⟨{ st with options :=
          setOption name (if value = "" then none else some value) st.options },
       [Response.ok none], .done⟩

/-- Source `AssuanServer._handle_cancel`: raises `AssuanError(175, ...)` when
called. -/
def handleCancel (_cfg : Config) (st : ServerState) (_arg : String) : HandlerResult :=
  ⟨st, [], .fault ⟨some 175, "Unknown command (reserved)"⟩⟩

/-- Source `AssuanServer._handle_auth`: raises `AssuanError(175, ...)` when called. -/
def handleAuth (_cfg : Config) (st : ServerState) (_arg : String) : HandlerResult :=
  ⟨st, [], .fault ⟨some 175, "Unknown command (reserved)"⟩⟩

/-- Source `getattr(self, '_handle_' + cmd)` also finds the engine's own methods
`_handle_request` and `_handle_requests` for the commands `REQUEST` and
`REQUESTS`.  Invoking either raises a non-Assuan exception before any
response is sent: `_handle_requests` rejects the extra positional argument
with `TypeError`, and `_handle_request` applied to a parameter string hits
`AttributeError` on `request.command` (re-raised from its own logging line),
both caught by the dispatcher's `except Exception` arm. -/
def handleEngineAttr (_cfg : Config) (st : ServerState) (_arg : String) : HandlerResult :=
  ⟨st, [], .pythonError⟩

/-- The handler `getattr(self, '_handle_' + request.command.lower())`
resolves to on the base `AssuanServer` class, `none` when the lookup raises
`AttributeError`. -/
def lookupHandler (cmd : String) :
    Option (Config → ServerState → String → HandlerResult) :=
  if cmd = "bye" then some handleBye
  else if cmd = "reset" then some handleReset
  else if cmd = "end" then some handleEnd
  else if cmd = "help" then some handleHelp
  else if cmd = "quit" then some handleQuit
  else if cmd = "option" then some handleOption
  else if cmd = "cancel" then some handleCancel
  else if cmd = "auth" then some handleAuth
  else if cmd = "request" then some handleEngineAttr
  else if cmd = "requests" then some handleEngineAttr
  else none

/-- Source `AssuanServer._handle_request`: look up the handler by the lower-cased
command; on `AttributeError` send `ERR 175 Unknown command`; otherwise drain
the handler's responses, sending each, and convert an `AssuanError` into its
`ERR` response and any other exception into
`ERR ... Unspecific Assuan server fault`. -/
def handleRequest (cfg : Config) (st : ServerState) (req : Request) :
    ServerState × List Response :=
  match lookupHandler (lowerString req.command) with
  | none => (st, [errorResponse (mkError "Unknown command")])
  | some h =>
    let r := h cfg st req.parameters
    match r.tail with
    | .done => (r.state, r.emitted)
    | .fault e => (r.state, r.emitted ++ [errorResponse e])
    | .pythonError =>
      (r.state, r.emitted ++ [errorResponse ⟨none, "Unspecific Assuan server fault"⟩])

/-- One result of `self.intake.readline()`: the line's text without its
trailing newline, and whether the trailing newline was present (`readline`
omits it only at end of stream). -/
structure InLine where
  text : String
  terminated : Bool
deriving DecidableEq

/-- Modelled from the spec: `common.LINE_LENGTH`, the maximum protocol line
length (the reference implementation uses 1000 bytes). -/
def LINE_LENGTH : Nat := 1000

/-- The byte length of the string `readline` returned, newline included. -/
def lineBytes (l : InLine) : Nat :=
  l.text.length + (if l.terminated then 1 else 0)

/-- How `AssuanServer._handle_requests`'s read loop ends: end of stream, the
stop flag, or the uncaught `AssuanError('Line too long')` escaping the loop. -/
inductive LoopExit
  | eof
  | stopped
  | lineTooLong
deriving DecidableEq

/-- The read loop of `AssuanServer._handle_requests` after the greeting:
while not stopped, read a line; an empty read is end of stream; a line longer
than `LINE_LENGTH` raises `AssuanError('Line too long')`, which is not caught
anywhere in the loop; an unterminated line sends `ERR ... Invalid request`
and continues; otherwise the line is parsed and dispatched.  Returns the
final state, the responses written, and how the loop ended. -/
def processLines (cfg : Config) : ServerState → List InLine → ServerState × List Response × LoopExit
  | st, [] => if st.stop then (st, [], .stopped) else (st, [], .eof)
  | st, l :: rest =>
    if st.stop then (st, [], .stopped)
    else if lineBytes l = 0 then (st, [], .eof)
    else if LINE_LENGTH < lineBytes l then (st, [], .lineTooLong)
    else if ¬ l.terminated then
      let next := processLines cfg st rest
      (next.1, errorResponse (mkError "Invalid request") :: next.2.1, next.2.2)
    else
      match requestFromBytes l.text with
      | .error e =>
        let next := processLines cfg st rest
        (next.1, errorResponse e :: next.2.1, next.2.2)
      | .ok req =>
        let pr := handleRequest cfg st req
        let next := processLines cfg pr.1 rest
        (next.1, pr.2 ++ next.2.1, next.2.2)

/-- The greeting `Response('OK', 'Your orders please')` sent on entry to
`_handle_requests`. -/
def greeting : Response := Response.ok (some "Your orders please")

/-- Source `AssuanServer._handle_requests`: the greeting followed by the read loop. -/
def handleRequestsRun (cfg : Config) (st : ServerState) (lines : List InLine) :
    ServerState × List Response × LoopExit :=
  let r := processLines cfg st lines
  (r.1, greeting :: r.2.1, r.2.2)

/-- Source `AssuanServer.run`: `self.reset()` first, then connect the streams and
call `_handle_requests`. -/
def runServer (cfg : Config) (st : ServerState) (lines : List InLine) :
    ServerState × List Response × LoopExit :=
  handleRequestsRun cfg (resetState st) lines

/-- A server configuration with no valid options, strict option mode, and
neither single-request nor listen-to-quit set (the constructor defaults). -/
def cfgDefault : Config := ⟨[], true, false, false⟩

/-- The configuration of the option doctest: allow-list `{"my-op"}`, strict
mode. -/
def cfgStrict : Config := ⟨["my-op"], true, false, false⟩

/-- A 1000-character line body; with its newline it is 1001 bytes, exceeding
`LINE_LENGTH`. -/
def longText : String := String.mk (List.replicate 1000 'a')

/-- Whether a response is an `ERR` line. -/
def isErrResponse : Response → Bool
  | .err _ _ => true
  | _ => false

end PyAssuan

namespace PyAssuan

lemma decode_cons_ne (x : Byte) (hx : ¬ x = (37 : Byte)) (l : List Byte) :
    decode (x :: l) = (decode l).map (x :: ·) := by
  match l with
  | [] => simp [decode, hx]
  | [a] => simp [decode, hx]
  | a :: c :: t => simp [decode, hx]

lemma lineSafe_cons_ne (x : Byte) (h37 : ¬ x = (37 : Byte))
    (h10 : ¬ x = (10 : Byte)) (h13 : ¬ x = (13 : Byte)) (l : List Byte) :
    lineSafe (x :: l) = lineSafe l := by
  match l with
  | [] => simp [lineSafe, h37, h10, h13]
  | [a] => simp [lineSafe, h37, h10, h13]
  | a :: c :: t => simp [lineSafe, h37, h10, h13]

lemma decode_encode (xs : List Byte) : decode (encode xs) = some xs := by
  induction xs with
  | nil => rfl
  | cons x xs ih =>
    by_cases h : x = (37 : Byte) ∨ x = (10 : Byte) ∨ x = (13 : Byte)
    · rcases h with h | h | h <;> subst h <;>
        simp [encode, encodeByte, needsEscape, hexDigit, decode, hexVal, ih] <;> rfl
    · push_neg at h
      obtain ⟨h37, h10, h13⟩ := h
      have hesc : needsEscape x = false := by
        simp [needsEscape, h37, h10, h13]
      simp [encode, encodeByte, hesc, decode_cons_ne x h37, ih]

lemma lineSafe_encode (xs : List Byte) : lineSafe (encode xs) = true := by
  induction xs with
  | nil => rfl
  | cons x xs ih =>
    by_cases h : x = (37 : Byte) ∨ x = (10 : Byte) ∨ x = (13 : Byte)
    · rcases h with h | h | h <;> subst h <;>
        simp [encode, encodeByte, needsEscape, hexDigit, lineSafe, isUpperHexDigit, ih] <;>
        decide
    · push_neg at h
      obtain ⟨h37, h10, h13⟩ := h
      have hesc : needsEscape x = false := by
        simp [needsEscape, h37, h10, h13]
      simp [encode, encodeByte, hesc, lineSafe_cons_ne x h37 h10 h13, ih]

/-- C5: for every byte string `x`, `decode (encode x) = x`; the output of
`encode` contains no raw `%`, newline or carriage return byte (every `%` in it
begins a two-uppercase-hex-digit escape, and `0x0A`/`0x0D` do not occur at
all); and `encode` of the bytes of `It grew by 5%!\n` is the bytes of
`It grew by 5%25!%0A`. -/
theorem C5_encode_decode_round_trip :
    (∀ xs : List Byte, decode (encode xs) = some xs) ∧
    (∀ xs : List Byte, lineSafe (encode xs) = true) ∧
    encode exampleRaw = exampleEncoded :=
  ⟨decode_encode, lineSafe_encode, by decide⟩

/-- C4: with allow-list `{"my-op"}` in strict mode, `_handle_option` stores
`"1"` for `my-op = 1 `, `"2"` for `my-op 2`, `"3"` for `--my-op 3`, and the
absent-value marker for a bare `my-op`; it faults with code 174 (Unknown
option) on `inv` and with code 90 (Invalid parameter) on `in|valid`; and
every successful OPTION yields `OK`. -/
theorem C4_option_handling :
    handleOption cfgStrict ⟨[], false⟩ "my-op = 1 " =
      ⟨⟨[("my-op", some "1")], false⟩, [Response.ok none], .done⟩ ∧
    handleOption cfgStrict ⟨[("my-op", some "1")], false⟩ "my-op 2" =
      ⟨⟨[("my-op", some "2")], false⟩, [Response.ok none], .done⟩ ∧
    handleOption cfgStrict ⟨[("my-op", some "2")], false⟩ "--my-op 3" =
      ⟨⟨[("my-op", some "3")], false⟩, [Response.ok none], .done⟩ ∧
    handleOption cfgStrict ⟨[("my-op", some "3")], false⟩ "my-op" =
      ⟨⟨[("my-op", none)], false⟩, [Response.ok none], .done⟩ ∧
    handleOption cfgStrict ⟨[("my-op", none)], false⟩ "inv" =
      ⟨⟨[("my-op", none)], false⟩, [], .fault ⟨some 174, "Unknown option"⟩⟩ ∧
    handleOption cfgStrict ⟨[("my-op", none)], false⟩ "in|valid" =
      ⟨⟨[("my-op", none)], false⟩, [], .fault ⟨some 90, "Invalid parameter"⟩⟩ := by
  refine ⟨?_, ?_, ?_, ?_, ?_, ?_⟩ <;> decide

/-- C3: a QUIT request with `listen_to_quit` true sets stop and emits
`OK stopping the server` immediately followed by
`ERR 175 Unknown command (reserved)`; with `listen_to_quit` false it emits
only the `ERR 175` line and leaves the state unchanged. -/
theorem C3_quit_dual_behavior (cfg : Config) (st : ServerState) (params : String) :
    (cfg.listenToQuit = true →
      handleRequest cfg st ⟨"QUIT", params⟩ =
        ({ st with stop := true },
         [Response.ok (some "stopping the server"),
          Response.err (some 175) "Unknown command (reserved)"])) ∧
    (cfg.listenToQuit = false →
      handleRequest cfg st ⟨"QUIT", params⟩ =
        (st, [Response.err (some 175) "Unknown command (reserved)"])) := by
  obtain ⟨vo, so, sr, lq⟩ := cfg
  constructor <;> intro h <;> subst h <;> rfl

/-- Witness for C3: both configurations at a concrete state and request. -/
theorem C3_quit_dual_behavior_witness :
    ((⟨[], true, false, true⟩ : Config).listenToQuit = true ∧
      handleRequest ⟨[], true, false, true⟩ ⟨[], false⟩ ⟨"QUIT", ""⟩ =
        (⟨[], true⟩,
         [Response.ok (some "stopping the server"),
          Response.err (some 175) "Unknown command (reserved)"])) ∧
    (cfgDefault.listenToQuit = false ∧
      handleRequest cfgDefault ⟨[], false⟩ ⟨"QUIT", ""⟩ =
        (⟨[], false⟩, [Response.err (some 175) "Unknown command (reserved)"])) :=
  ⟨⟨rfl, (C3_quit_dual_behavior ⟨[], true, false, true⟩ ⟨[], false⟩ "").1 rfl⟩,
   ⟨rfl, (C3_quit_dual_behavior cfgDefault ⟨[], false⟩ "").2 rfl⟩⟩

/-- C8: a request whose lower-cased command has no handler attribute yields
exactly the single response `ERR 175 Unknown command`, and the read loop
carries on with the remaining lines in the same state. -/
theorem C8_unknown_command (cfg : Config) (st : ServerState) (l : InLine)
    (rest : List InLine) (req : Request)
    (hstop : st.stop = false) (hterm : l.terminated = true)
    (hlen : lineBytes l ≤ LINE_LENGTH)
    (hparse : requestFromBytes l.text = Except.ok req)
    (hcmd : lookupHandler (lowerString req.command) = none) :
    handleRequest cfg st req = (st, [Response.err (some 175) "Unknown command"]) ∧
    processLines cfg st (l :: rest) =
      ((processLines cfg st rest).1,
       Response.err (some 175) "Unknown command" :: (processLines cfg st rest).2.1,
       (processLines cfg st rest).2.2) := by
  have hreq : handleRequest cfg st req = (st, [Response.err (some 175) "Unknown command"]) := by
    unfold handleRequest
    rw [hcmd]
    rfl
  refine ⟨hreq, ?_⟩
  have h0 : ¬ lineBytes l = 0 := by
    unfold lineBytes
    rw [hterm]
    simp
  have hnl : ¬ LINE_LENGTH < lineBytes l := not_lt.mpr hlen
  simp [processLines, hstop, h0, hnl, hterm, hparse, hreq]

/-- Witness for C8: the unknown command `FOO` on a fresh connection. -/
theorem C8_unknown_command_witness :
    requestFromBytes "FOO" = Except.ok ⟨"FOO", ""⟩ ∧
    lookupHandler (lowerString "FOO") = none ∧
    handleRequest cfgDefault ⟨[], false⟩ ⟨"FOO", ""⟩ =
      (⟨[], false⟩, [Response.err (some 175) "Unknown command"]) ∧
    processLines cfgDefault ⟨[], false⟩ [⟨"FOO", true⟩] =
      (⟨[], false⟩, [Response.err (some 175) "Unknown command"], LoopExit.eof) := by
  refine ⟨rfl, rfl, ?_, ?_⟩
  · exact (C8_unknown_command cfgDefault ⟨[], false⟩ ⟨"FOO", true⟩ [] ⟨"FOO", ""⟩
      rfl rfl (by decide) rfl rfl).1
  · rw [(C8_unknown_command cfgDefault ⟨[], false⟩ ⟨"FOO", true⟩ [] ⟨"FOO", ""⟩
      rfl rfl (by decide) rfl rfl).2]
    rfl

/-- C7 exhibit: handling RESET does clear the stored options and reset the
stop flag, but it is not a silent success — `_handle_reset` returns `None`,
the dispatch loop's `for response in None` raises `TypeError`, and an
`ERR ... Unspecific Assuan server fault` response is emitted on the wire. -/
theorem C7_reset_clears_but_faults (cfg : Config) (st : ServerState) (params : String) :
    handleRequest cfg st ⟨"RESET", params⟩ =
      (⟨[], false⟩, [Response.err none "Unspecific Assuan server fault"]) := rfl

/-- C9: `AssuanServer.run` resets the per-connection state before reading any
input: its outcome does not depend on the options or stop flag left over in
the server object, and equals running the request loop from the cleared
state. -/
theorem C9_run_resets_state (cfg : Config) (st st' : ServerState) (lines : List InLine) :
    runServer cfg st lines = runServer cfg st' lines ∧
    runServer cfg st lines = handleRequestsRun cfg ⟨[], false⟩ lines :=
  ⟨rfl, rfl⟩

/-- C2 (amended): an input line longer than `LINE_LENGTH` raises the fault
`Line too long` before any parsing or handler dispatch, but the fault is not
emitted as an `ERR` response: it escapes the read loop uncaught, and the loop
terminates without processing any further line. -/
theorem C2_line_too_long_terminates (cfg : Config) (st : ServerState)
    (l : InLine) (rest : List InLine)
    (hstop : st.stop = false) (hlen : LINE_LENGTH < lineBytes l) :
    processLines cfg st (l :: rest) = (st, [], LoopExit.lineTooLong) := by
  have h0 : ¬ lineBytes l = 0 := by omega
  simp [processLines, hstop, h0, hlen]

/-- Witness for C2 (amended): a 1001-byte line followed by a `BYE` line. -/
theorem C2_line_too_long_terminates_witness :
    (⟨[], false⟩ : ServerState).stop = false ∧
    LINE_LENGTH < lineBytes ⟨longText, true⟩ ∧
    processLines cfgDefault ⟨[], false⟩ [⟨longText, true⟩, ⟨"BYE", true⟩] =
      (⟨[], false⟩, [], LoopExit.lineTooLong) :=
  ⟨rfl, by decide,
   C2_line_too_long_terminates cfgDefault ⟨[], false⟩ ⟨longText, true⟩
     [⟨"BYE", true⟩] rfl (by decide)⟩

/-- C2 counterexample: on a 1001-byte first line the engine emits no `ERR`
response at all (the greeting is the only output) and the read loop does not
continue to the following `BYE` line — the run ends with the uncaught
`Line too long` fault, contrary to the claim that the fault is emitted as an
`ERR` response and the loop keeps awaiting lines. -/
theorem C2_claim_counterexample :
    (runServer cfgDefault ⟨[], false⟩ [⟨longText, true⟩, ⟨"BYE", true⟩]).2.1.filter
        isErrResponse = [] ∧
    (runServer cfgDefault ⟨[], false⟩ [⟨longText, true⟩, ⟨"BYE", true⟩]).2.1 =
      [greeting] ∧
    (runServer cfgDefault ⟨[], false⟩ [⟨longText, true⟩, ⟨"BYE", true⟩]).2.2 =
      LoopExit.lineTooLong := by
  refine ⟨?_, ?_, ?_⟩ <;> rfl

/-- C1 exhibit: no path of the accept loop implements the claimed shed-load
bound.  With `max_threads = 1` and two already-terminated workers still in
the thread list (the cleanup keeps finished threads), the overflow branch
calls `drop_connection` (which only logs), yet an engine thread is spawned
for the very connection that was just dropped; and with one still-running
worker in the list, the iteration crashes in `__cleanup_threads` (the worker
is popped, then `thread.socket` raises `AttributeError`) before the drop
check or any spawn is reached, so no connection is ever dropped-and-refused
and no reap-then-accept ever succeeds. -/
theorem C1_drop_still_spawns :
    acceptStep 1 [⟨0, false⟩, ⟨1, false⟩] 2 =
      .spawned [⟨0, false⟩, ⟨1, false⟩, ⟨2, true⟩] true ∧
    acceptStep 1 [⟨0, true⟩] 1 = .crashed [] ⟨0, true⟩ := by
  constructor <;> rfl

/-- C6 exhibit: the cleanup pass reaps no finished worker.  With a running
worker first and a finished worker behind it, the running worker is popped
from the live set and the scan aborts with `AttributeError` at
`thread.socket.shutdown()` — its socket is never closed and the finished
worker is never examined or removed; and with only finished workers in the
list, all of them are kept and none reaped. -/
theorem C6_cleanup_keeps_finished_removes_live :
    cleanupThreads [⟨0, true⟩, ⟨1, false⟩] = .attributeError [⟨1, false⟩] ⟨0, true⟩ ∧
    cleanupThreads [⟨2, false⟩, ⟨3, false⟩] = .ok [⟨2, false⟩, ⟨3, false⟩] := by
  constructor <;> rfl

lemma pyval_ne_pair (a v : PyVal) : v ≠ PyVal.pypair a v := by
  intro h
  have hs := congrArg sizeOf h
  simp at hs

/-- C10: whenever `kwargs` contains the key `close_on_disconnect` — whatever
its value — `AssuanSocketServer.__init__` fails an assertion, because the
stored value is compared against the tuple `(True, value)` and that
comparison is always false; `close_on_disconnect = True` is injected only
when the key is absent. -/
theorem C10_close_on_disconnect_asserts (kwargs : List (String × PyVal)) :
    (∀ v, kwargs.lookup "close_on_disconnect" = some v →
      initSocketServerKwargs kwargs = .assertionError) ∧
    (kwargs.lookup "name" = none → kwargs.lookup "close_on_disconnect" = none →
      initSocketServerKwargs kwargs =
        .accepted (kwargs ++ [("close_on_disconnect", .pybool true)])) := by
  constructor
  · intro v hv
    unfold initSocketServerKwargs
    cases hname : (kwargs.lookup "name").isSome
    · simp [hname, hv, pyval_ne_pair (PyVal.pybool true) v]
    · simp [hname]
  · intro hn hc
    unfold initSocketServerKwargs
    simp [hn, hc]

/-- Witness for C10: `close_on_disconnect` mapped to `True` and to `False`
both fail the assertion; with the key absent it is injected as `True`. -/
theorem C10_close_on_disconnect_asserts_witness :
    ([("close_on_disconnect", PyVal.pybool true)].lookup "close_on_disconnect" =
        some (.pybool true) ∧
      initSocketServerKwargs [("close_on_disconnect", .pybool true)] =
        .assertionError) ∧
    ([("close_on_disconnect", PyVal.pybool false)].lookup "close_on_disconnect" =
        some (.pybool false) ∧
      initSocketServerKwargs [("close_on_disconnect", .pybool false)] =
        .assertionError) ∧
    initSocketServerKwargs [("greeting", .pystr "hi")] =
      .accepted [("greeting", .pystr "hi"), ("close_on_disconnect", .pybool true)] :=
  ⟨⟨rfl, (C10_close_on_disconnect_asserts _).1 _ rfl⟩,
   ⟨rfl, (C10_close_on_disconnect_asserts _).1 _ rfl⟩,
   (C10_close_on_disconnect_asserts _).2 rfl rfl⟩

end PyAssuan
